import Mathlib

/-!
Shallow embedding of `pdf_autofiller.py` (field classification, value
synthesis, and PDF widget patching) together with theorems about its
behaviour.

The remote generation service is modelled as an explicit response argument:
`some r` is the text content of the first choice of a successful call, and
`none` is any transport/service failure (a raised exception in the source,
absorbed by the surrounding `try`/`except`).
-/

namespace PdfAutofiller

/-- A Python value as produced by `get_data_from_ai`: either a `bool`
or a `str`. -/
inductive PyVal where
  | b (x : Bool)
  | s (x : String)
deriving DecidableEq, Repr

/-- Python `str(v)` on the values of `PyVal`. -/
def pyStr : PyVal → String
  | .b true => "True"
  | .b false => "False"
  | .s x => x

/-- The ASCII whitespace characters stripped by Python's `str.strip()`. -/
def isPySpace (c : Char) : Bool :=
  c = ' ' || c = '\t' || c = '\n' || c = '\r' || c = '\x0b' || c = '\x0c'

/-- Remove the longest run of characters satisfying `p` from both ends of
a character list (the semantics of Python's `str.strip(chars)`). -/
def stripList (p : Char → Bool) (l : List Char) : List Char :=
  ((l.dropWhile p).reverse.dropWhile p).reverse

/-- Python `s.strip(chars)` where `chars` is described by the predicate `p`. -/
def pyStripWith (p : Char → Bool) (s : String) : String :=
  String.mk (stripList p s.toList)

/-- Python `s.strip()`: remove surrounding whitespace. -/
def pyStrip (s : String) : String :=
  pyStripWith isPySpace s

/-- The two characters of Python's `s.strip(' "')` in the source:
the space and the double-quote character. -/
def isSpaceOrDquote (c : Char) : Bool :=
  c = ' ' || c = '"'

/-- Python `s.strip(' "')` as written in `get_data_from_ai`. -/
def pyStripSpaceQuote (s : String) : String :=
  pyStripWith isSpaceOrDquote s

/-- Python `s.lower()` (ASCII case folding suffices for this program). -/
def pyLower (s : String) : String :=
  String.mk (s.toList.map Char.toLower)

/-- Python `s.replace(a, b)` for single-character `a`, `b`. -/
def replaceChar (a b : Char) (s : String) : String :=
  String.mk (s.toList.map fun c => if c = a then b else c)

/-- Does list `l` begin with the list `p`? -/
def beginsWith : List Char → List Char → Bool
  | [], _ => true
  | _ :: _, [] => false
  | p :: ps, c :: cs => p = c && beginsWith ps cs

/-- Does the needle occur as a contiguous sublist of the haystack? -/
def hasSubList (needle : List Char) : List Char → Bool
  | [] => beginsWith needle []
  | c :: rest => beginsWith needle (c :: rest) || hasSubList needle rest

/-- Python `needle in hay` on strings: substring containment. -/
def pyContains (hay needle : String) : Bool :=
  hasSubList needle.toList hay.toList

/-- The closed category vocabulary of `get_field_type_from_ai`
(source lines 19–24). -/
def field_categories : List String :=
  ["name", "first_name", "last_name", "phone_number", "email", "address",
   "city", "state", "zip_code", "country", "company", "job_title", "date",
   "vehicle_year", "vehicle_make", "vehicle_model", "vin", "license_plate",
   "currency_amount", "boolean", "text"]

/-- `get_field_type_from_ai(field_name, client, model)`: the service
response is passed explicitly (`none` = raised exception).  On success the
source computes
`category = response.choices[0].message.content.strip().lower().replace("_", " ")`
and returns `category` when `category.replace(" ", "_")` is in
`field_categories`, else `"text"`; on exception it returns `"text"`. -/
def get_field_type_from_ai (field_name : String) (response : Option String) :
    String :=
  match response with
  | none => "text"
  | some r =>
      let category := replaceChar '_' ' ' (pyLower (pyStrip r))
      if field_categories.contains (replaceChar ' ' '_' category) then category
      else "text"

/-- `get_data_from_ai(field_name, field_type, client, model)`: the service
response is passed explicitly (`none` = raised exception).  On success the
source strips `' "'` from the content, then for `field_type == 'boolean'`
returns `True if 'yes' in data_value.lower() else False`, and otherwise the
stripped string; on exception it returns `""`. -/
def get_data_from_ai (field_name field_type : String)
    (response : Option String) : PyVal :=
  match response with
  | none => .s ""
  | some r =>
      let data_value := pyStripSpaceQuote r
      if field_type = "boolean" then
        .b (pyContains (pyLower data_value) "yes")
      else
        .s data_value

/-- A pdfrw object stored under a dictionary key: a name object
(`pdfrw.PdfName('Yes')`, rendered `/Yes`) or a plain string. -/
inductive PdfObj where
  | name (x : String)
  | str (x : String)
deriving DecidableEq, Repr

/-- A PDF annotation dictionary, restricted to the entries this program
reads or writes (`/Subtype`, `/T`, `/V`, `/AS`); `other` stands for all
remaining entries, which the program never touches. -/
structure Annot where
  subtype : Option String
  T : Option String
  V : Option PdfObj
  AS : Option PdfObj
  other : List (String × String)
deriving DecidableEq, Repr

/-- A page: `annots` models `page.get('/Annots')` (`none` = no key). -/
structure Page where
  annots : Option (List Annot)
deriving DecidableEq, Repr

/-- A document as `fill_pdf_form` sees it: pages, whether
`Root.AcroForm` is present, and the `NeedAppearances` flag on it. -/
structure PdfDoc where
  pages : List Page
  hasAcroForm : Bool
  needAppearances : Bool
deriving DecidableEq, Repr

/-- Python truthiness of an optional string (`annotation.get('/T')` used
as a condition: `None` and `''` are falsy). -/
def pyTruthy : Option String → Bool
  | none => false
  | some s => s ≠ ""

/-- Python `s[1:-1]`: the string with its first and last character
removed (empty for strings of length ≤ 1). -/
def sliceOneToMinusOne (s : String) : String :=
  String.mk ((s.toList.drop 1).dropLast)

/-- The body of the annotation loop of `fill_pdf_form` (source lines
74–85): a widget annotation with a truthy `/T` whose name `/T[1:-1]`
is a key of `data_to_fill` gets `/V` (and for booleans `/AS`) updated;
every other annotation is returned unchanged. -/
def fill_annot (data_to_fill : List (String × PyVal)) (a : Annot) :
    Annot :=
  match a.T with
  | none => a
  | some t =>
      if a.subtype = some "/Widget" ∧ t ≠ "" then
        match data_to_fill.lookup (sliceOneToMinusOne t) with
        | none => a
        | some (.b true) =>
            { a with V := some (.name "Yes"), AS := some (.name "Yes") }
        | some (.b false) =>
            { a with V := some (.name "Off"), AS := some (.name "Off") }
        | some (.s x) => { a with V := some (.str (pyStr (.s x))) }
      else a

/-- One iteration of the page loop of `fill_pdf_form`: pages without an
`/Annots` key are skipped (`continue`). -/
def fill_page (data_to_fill : List (String × PyVal)) (p : Page) : Page :=
  match p.annots with
  | none => p
  | some anns => { p with annots := some (anns.map (fill_annot data_to_fill)) }

/-- `fill_pdf_form(input_pdf, data_to_fill)`: the freshly re-read template
is the `template` argument; every page's annotations are processed, and
when the document has an AcroForm root its `NeedAppearances` entry is set
to true. -/
def fill_pdf_form (template : PdfDoc) (data_to_fill : List (String × PyVal)) :
    PdfDoc :=
  let filled := { template with
                  pages := template.pages.map (fill_page data_to_fill) }
  if filled.hasAcroForm then { filled with needAppearances := true }
  else filled

/-- The per-document body of `main`'s generation loop (source lines
123–137): build `data_to_fill` by classifying and synthesizing each field
in order, then fill the template.  The service responses for document `i`
are given by the oracles `cResp` (classification) and `gResp`
(generation, also given the detected type). -/
def generate_document (fields : List String) (i : Nat)
    (cResp : Nat → String → Option String)
    (gResp : Nat → String → String → Option String)
    (template : PdfDoc) : PdfDoc :=
  let data_to_fill := fields.map fun field_name =>
    let field_type := get_field_type_from_ai field_name (cResp i field_name)
    (field_name, get_data_from_ai field_name field_type (gResp i field_name field_type))
  fill_pdf_form template data_to_fill

/-- The output-producing tail of `main` (source lines 115–137): `fields`
is the result of `reader.get_fields()` (`none` when the PDF has no form);
`if not fields:` returns before any document is generated, otherwise one
output file `{outStem}-{i}.pdf` is written per `i ∈ 1..output_number`.
The result is the list of (filename, document) pairs written. -/
def main_outputs (fields : Option (List String)) (output_number : Nat)
    (cResp : Nat → String → Option String)
    (gResp : Nat → String → String → Option String)
    (template : PdfDoc) (outStem : String) : List (String × PdfDoc) :=
  match fields with
  | none => []
  | some fs =>
      if fs.isEmpty then []
      else
        (List.range output_number).map fun j =>
          let i := j + 1
          (outStem ++ "-" ++ toString i ++ ".pdf",
           generate_document fs i cResp gResp template)

/-! ### Theorems -/

/-- C1 (counterexample): on the successful service response `"first_name"`
the classifier returns `"first name"` (underscores replaced by spaces),
which is not a member of the closed vocabulary `field_categories`. -/
theorem classify_escapes_vocabulary_on_first_name :
    get_field_type_from_ai "applicant" (some "first_name") = "first name" ∧
    "first name" ∉ field_categories :=
  ⟨by decide, by decide⟩

/-- C1 (amended): for every field name and every service response
(including failure), the classifier's result becomes a member of the
closed vocabulary `field_categories` once its spaces are turned back into
underscores; the result itself is the separator-normalized (underscore →
space) form of a vocabulary label, or the catch-all `"text"`. -/
theorem classify_result_in_vocabulary_up_to_separators
    (field_name : String) (response : Option String) :
    replaceChar ' ' '_' (get_field_type_from_ai field_name response) ∈
      field_categories := by
  match response with
  | none =>
      show replaceChar ' ' '_' "text" ∈ field_categories
      decide
  | some r =>
      simp only [get_field_type_from_ai]
      split
      · next h => exact List.elem_iff.mp h
      · decide

/-- C2 (counterexample): when the generation service fails (`none`) for a
field of category `boolean`, `get_data_from_ai` returns the empty string —
a string-typed value, not a boolean. -/
theorem synthesize_boolean_failure_returns_string :
    get_data_from_ai "is_member" "boolean" none = PyVal.s "" ∧
    PyVal.s "" ≠ PyVal.b true ∧ PyVal.s "" ≠ PyVal.b false :=
  ⟨rfl, by decide, by decide⟩

/-- C2 (amended): on a successful service call, category `boolean` yields
a boolean value and every other category yields a string value; but on a
failed call the result is the empty string regardless of category, so the
boolean-type invariant holds only for successful calls. -/
theorem synthesize_type_invariant (field_name field_type : String)
    (response : Option String) :
    (field_type = "boolean" → ∀ r, response = some r →
      ∃ bv, get_data_from_ai field_name field_type response = PyVal.b bv) ∧
    (field_type ≠ "boolean" →
      ∃ sv, get_data_from_ai field_name field_type response = PyVal.s sv) ∧
    (response = none →
      get_data_from_ai field_name field_type response = PyVal.s "") := by
  refine ⟨?_, ?_, ?_⟩
  · rintro hb r rfl
    subst hb
    exact ⟨pyContains (pyLower (pyStripSpaceQuote r)) "yes",
      by simp [get_data_from_ai]⟩
  · intro hnb
    match response with
    | none => exact ⟨"", rfl⟩
    | some r => exact ⟨pyStripSpaceQuote r, by simp [get_data_from_ai, hnb]⟩
  · rintro rfl
    rfl

/-- Witness for `synthesize_type_invariant` at a concrete non-boolean
input. -/
theorem synthesize_type_invariant_witness :
    ∃ sv, get_data_from_ai "notes" "text" (some "hello") = PyVal.s sv :=
  (synthesize_type_invariant "notes" "text" (some "hello")).2.1 (by decide)

/-- C5: the classifier absorbs every failure: a failed service call yields
the catch-all `"text"`, and so does any successful response whose
normalized form is not in the vocabulary.  (`get_field_type_from_ai` is a
total function, so no exception can escape it.) -/
theorem classify_fallback_policy (field_name : String)
    (response : Option String) :
    (response = none → get_field_type_from_ai field_name response = "text") ∧
    (∀ r, response = some r →
      field_categories.contains
        (replaceChar ' ' '_' (replaceChar '_' ' ' (pyLower (pyStrip r)))) = false →
      get_field_type_from_ai field_name response = "text") := by
  constructor
  · rintro rfl; rfl
  · rintro r rfl hmiss
    simp only [get_field_type_from_ai]
    split
    · next h =>
        rw [h] at hmiss
        simp at hmiss
    · rfl

/-- Witness for `classify_fallback_policy` at a concrete garbage
response. -/
theorem classify_fallback_policy_witness :
    get_field_type_from_ai "field1" (some "garbage!!") = "text" :=
  (classify_fallback_policy "field1" (some "garbage!!")).2 "garbage!!" rfl
    (by decide)

/-- C6: under a total service failure (`none` responses), classification
returns the catch-all `"text"` and synthesis returns the empty string,
for every field name and every category (including `boolean`); both
functions are pure, so repeated calls return the same values. -/
theorem fallback_constant_under_total_failure (field_name field_type : String) :
    get_field_type_from_ai field_name none = "text" ∧
    get_data_from_ai field_name field_type none = PyVal.s "" :=
  ⟨rfl, rfl⟩

/-- C7: on a successful response, category `boolean` yields `true` exactly
when the stripped text contains `"yes"` case-insensitively, and every
other category yields the stripped string unchanged. -/
theorem synthesize_success_coercion (field_name field_type r : String) :
    (field_type = "boolean" →
      get_data_from_ai field_name field_type (some r)
        = PyVal.b (pyContains (pyLower (pyStripSpaceQuote r)) "yes")) ∧
    (field_type ≠ "boolean" →
      get_data_from_ai field_name field_type (some r)
        = PyVal.s (pyStripSpaceQuote r)) := by
  constructor
  · rintro rfl; simp [get_data_from_ai]
  · intro h; simp [get_data_from_ai, h]

/-- Witness for `synthesize_success_coercion` at a concrete boolean
input. -/
theorem synthesize_success_coercion_witness :
    get_data_from_ai "member" "boolean" (some " Yes ") = PyVal.b true := by
  have h := (synthesize_success_coercion "member" "boolean" " Yes ").1 rfl
  rw [h]
  decide

/-- The pages of the filled document are the template's pages with
`fill_page` applied; the `NeedAppearances` branch does not touch them. -/
theorem fill_pdf_form_pages (template : PdfDoc)
    (data : List (String × PyVal)) :
    (fill_pdf_form template data).pages
      = template.pages.map (fill_page data) := by
  simp only [fill_pdf_form]
  split <;> rfl

/-- A widget annotation with a truthy `/T` whose stripped name is mapped
gets updated according to the mapped value. -/
theorem fill_annot_hit (data : List (String × PyVal)) (a : Annot)
    (t : String) (hsub : a.subtype = some "/Widget") (ht : a.T = some t)
    (hne : t ≠ "") (v : PyVal)
    (hkey : data.lookup (sliceOneToMinusOne t) = some v) :
    fill_annot data a =
      (match v with
       | .b true => { a with V := some (.name "Yes"), AS := some (.name "Yes") }
       | .b false => { a with V := some (.name "Off"), AS := some (.name "Off") }
       | .s x => { a with V := some (.str x) }) := by
  simp only [fill_annot, ht, hkey]
  rw [if_pos ⟨hsub, hne⟩]
  rcases v with bv | x
  · cases bv <;> rfl
  · rfl

/-- An annotation with a `/T` whose stripped name is not mapped is
returned unchanged. -/
theorem fill_annot_miss (data : List (String × PyVal)) (a : Annot)
    (t : String) (ht : a.T = some t)
    (hmiss : data.lookup (sliceOneToMinusOne t) = none) :
    fill_annot data a = a := by
  simp only [fill_annot, ht, hmiss]
  split <;> rfl

/-- C3: for every widget annotation of the template (page `i`,
annotation `j`) with a truthy `/T` whose stripped field name is a key of
the mapping, the filled document holds the updated annotation at the same
position: a boolean value sets `/V` and `/AS` together to `Yes` (true) or
`Off` (false), and a non-boolean value sets `/V` to the string form of
the value. -/
theorem form_writer_sets_value_and_appearance
    (template : PdfDoc) (data : List (String × PyVal)) (i j : Nat)
    (p : Page) (hp : template.pages[i]? = some p)
    (anns : List Annot) (ha : p.annots = some anns)
    (a : Annot) (haj : anns[j]? = some a)
    (t : String) (hsub : a.subtype = some "/Widget") (ht : a.T = some t)
    (hne : t ≠ "") (v : PyVal)
    (hkey : data.lookup (sliceOneToMinusOne t) = some v) :
    ∃ p' anns',
      (fill_pdf_form template data).pages[i]? = some p' ∧
      p'.annots = some anns' ∧
      anns'[j]? = some (match v with
        | .b true => { a with V := some (.name "Yes"), AS := some (.name "Yes") }
        | .b false => { a with V := some (.name "Off"), AS := some (.name "Off") }
        | .s x => { a with V := some (.str x) }) := by
  refine ⟨fill_page data p, anns.map (fill_annot data), ?_, ?_, ?_⟩
  · rw [fill_pdf_form_pages, List.getElem?_map, hp, Option.map_some']
  · simp [fill_page, ha]
  · rw [List.getElem?_map, haj, Option.map_some',
      fill_annot_hit data a t hsub ht hne v hkey]

/-- Witness for `form_writer_sets_value_and_appearance`: a one-page
template with a checkbox widget named `agree`, filled from the mapping
`{agree ↦ true}`. -/
theorem form_writer_sets_value_and_appearance_witness :
    ∃ p' anns',
      (fill_pdf_form
        ⟨[⟨some [⟨some "/Widget", some "(agree)", none, none, []⟩]⟩], true, false⟩
        [("agree", PyVal.b true)]).pages[0]? = some p' ∧
      p'.annots = some anns' ∧
      anns'[0]? = some ⟨some "/Widget", some "(agree)",
        some (.name "Yes"), some (.name "Yes"), []⟩ :=
  form_writer_sets_value_and_appearance
    ⟨[⟨some [⟨some "/Widget", some "(agree)", none, none, []⟩]⟩], true, false⟩
    [("agree", PyVal.b true)] 0 0 _ rfl _ rfl _ rfl
    "(agree)" rfl rfl (by decide) (PyVal.b true) (by decide)

/-- C4: a widget annotation whose stripped field name is absent from the
mapping appears unchanged, at the same position, in the filled
document. -/
theorem form_writer_leaves_unmatched_untouched
    (template : PdfDoc) (data : List (String × PyVal)) (i j : Nat)
    (p : Page) (hp : template.pages[i]? = some p)
    (anns : List Annot) (ha : p.annots = some anns)
    (a : Annot) (haj : anns[j]? = some a)
    (t : String) (_hsub : a.subtype = some "/Widget") (ht : a.T = some t)
    (hmiss : data.lookup (sliceOneToMinusOne t) = none) :
    ∃ p' anns',
      (fill_pdf_form template data).pages[i]? = some p' ∧
      p'.annots = some anns' ∧
      anns'[j]? = some a := by
  refine ⟨fill_page data p, anns.map (fill_annot data), ?_, ?_, ?_⟩
  · rw [fill_pdf_form_pages, List.getElem?_map, hp, Option.map_some']
  · simp [fill_page, ha]
  · rw [List.getElem?_map, haj, Option.map_some',
      fill_annot_miss data a t ht hmiss]

/-- Witness for `form_writer_leaves_unmatched_untouched`: the widget
`other_field` is untouched when only `agree` is mapped. -/
theorem form_writer_leaves_unmatched_untouched_witness :
    ∃ p' anns',
      (fill_pdf_form
        ⟨[⟨some [⟨some "/Widget", some "(other_field)", none, none, []⟩]⟩], true, false⟩
        [("agree", PyVal.b true)]).pages[0]? = some p' ∧
      p'.annots = some anns' ∧
      anns'[0]? = some ⟨some "/Widget", some "(other_field)", none, none, []⟩ :=
  form_writer_leaves_unmatched_untouched
    ⟨[⟨some [⟨some "/Widget", some "(other_field)", none, none, []⟩]⟩], true, false⟩
    [("agree", PyVal.b true)] 0 0 _ rfl _ rfl _ rfl
    "(other_field)" rfl rfl (by decide)

/-- C10: the Form Writer matches a widget against the mapping by the
`/T` string with its first and last character removed (`/T[1:-1]`), not
by the raw `/T` string: the widget is written exactly when the stripped
name is a key of the mapping. -/
theorem form_writer_matches_on_stripped_name
    (data : List (String × PyVal)) (a : Annot) (t : String)
    (hsub : a.subtype = some "/Widget") (ht : a.T = some t) (hne : t ≠ "") :
    (data.lookup (sliceOneToMinusOne t) = none → fill_annot data a = a) ∧
    (∀ v, data.lookup (sliceOneToMinusOne t) = some v →
      (fill_annot data a).V = some (match v with
        | .b true => PdfObj.name "Yes"
        | .b false => PdfObj.name "Off"
        | .s x => PdfObj.str x)) := by
  constructor
  · intro h
    exact fill_annot_miss data a t ht h
  · intro v h
    rw [fill_annot_hit data a t hsub ht hne v h]
    rcases v with bv | x
    · cases bv <;> rfl
    · rfl

/-- Witness for `form_writer_matches_on_stripped_name`: the raw `/T`
string `"(name1)"` is not a key of the mapping, yet the value is written
because the stripped name `"name1"` is. -/
theorem form_writer_matches_on_stripped_name_witness :
    [("name1", PyVal.s "X")].lookup "(name1)" = none ∧
    (fill_annot [("name1", PyVal.s "X")]
      ⟨some "/Widget", some "(name1)", none, none, []⟩).V
      = some (PdfObj.str "X") :=
  ⟨by decide,
   (form_writer_matches_on_stripped_name [("name1", PyVal.s "X")]
      ⟨some "/Widget", some "(name1)", none, none, []⟩ "(name1)"
      rfl rfl (by decide)).2 (PyVal.s "X") (by decide)⟩

/-- C9: when the field enumeration yields no fillable fields (`None` or
an empty dictionary from `reader.get_fields()`), `main` writes zero
output files and returns normally. -/
theorem zero_fields_zero_outputs (fields : Option (List String)) (n : Nat)
    (cResp : Nat → String → Option String)
    (gResp : Nat → String → String → Option String)
    (template : PdfDoc) (outStem : String)
    (h : fields = none ∨ fields = some []) :
    main_outputs fields n cResp gResp template outStem = [] := by
  rcases h with h | h <;> subst h <;> rfl

/-- Witness for `zero_fields_zero_outputs` on a concrete empty form. -/
theorem zero_fields_zero_outputs_witness :
    main_outputs (some []) 3 (fun _ _ => none) (fun _ _ _ => none)
      ⟨[], false, false⟩ "filled_document" = [] :=
  zero_fields_zero_outputs (some []) 3 (fun _ _ => none) (fun _ _ _ => none)
    ⟨[], false, false⟩ "filled_document" (Or.inr rfl)

/-- The head of `dropWhile p l`, when it exists, fails `p`. -/
theorem head_of_dropWhile_not {α : Type} (p : α → Bool) (l : List α) (c : α)
    (hc : (l.dropWhile p).head? = some c) : p c = false := by
  have h := List.head?_dropWhile_not p l
  rw [hc] at h
  exact h

/-- `stripList p` removes characters satisfying `p` from both ends, and
nothing else: the input splits as `pre ++ stripList p l ++ post` with all
of `pre` and `post` satisfying `p`. -/
theorem stripList_decomposition (p : Char → Bool) (l : List Char) :
    ∃ pre post, l = pre ++ stripList p l ++ post ∧
      (∀ c ∈ pre, p c = true) ∧ (∀ c ∈ post, p c = true) := by
  refine ⟨l.takeWhile p, ((l.dropWhile p).reverse.takeWhile p).reverse,
    ?_, ?_, ?_⟩
  · have h3 : l.dropWhile p
        = stripList p l ++ ((l.dropWhile p).reverse.takeWhile p).reverse := by
      simp only [stripList]
      rw [← List.reverse_append, List.takeWhile_append_dropWhile,
        List.reverse_reverse]
    conv_lhs => rw [← List.takeWhile_append_dropWhile p l, h3]
    rw [List.append_assoc]
  · exact fun c hc => List.mem_takeWhile_imp hc
  · exact fun c hc => List.mem_takeWhile_imp (List.mem_reverse.mp hc)

/-- The stripping is maximal on the right: the last character of the
stripped list, when it exists, fails `p`. -/
theorem stripList_getLast_not (p : Char → Bool) (l : List Char) (c : Char)
    (hc : (stripList p l).getLast? = some c) : p c = false := by
  have h1 : ((l.dropWhile p).reverse.dropWhile p).head? = some c := by
    rw [← List.getLast?_reverse]
    exact hc
  exact head_of_dropWhile_not p _ c h1

/-- The stripping is maximal on the left: the first character of the
stripped list, when it exists, fails `p`. -/
theorem stripList_head_not (p : Char → Bool) (l : List Char) (c : Char)
    (hc : (stripList p l).head? = some c) : p c = false := by
  have h1 : ((l.dropWhile p).reverse.dropWhile p).getLast? = some c := by
    rw [← List.head?_reverse]
    exact hc
  have hk : (l.dropWhile p).reverse.dropWhile p ≠ [] := by
    intro h0
    rw [h0] at h1
    simp at h1
  obtain ⟨u, hu⟩ := List.dropWhile_suffix (l := (l.dropWhile p).reverse) p
  have h2 : (l.dropWhile p).reverse.getLast? = some c := by
    rw [← hu, List.getLast?_append_of_ne_nil u hk]
    exact h1
  have h3 : (l.dropWhile p).head? = some c := by
    rw [← List.getLast?_reverse]
    exact h2
  exact head_of_dropWhile_not p l c h3

/-- C8 (counterexample): a response surrounded by tab and newline — both
whitespace characters per Python's `str.strip()` — is returned by the
synthesizer entirely unstripped, because the source strips only the two
characters `' '` and `'"'`. -/
theorem synthesize_keeps_tab_and_newline :
    get_data_from_ai "notes" "text" (some "\thello\n") = PyVal.s "\thello\n" ∧
    isPySpace '\t' = true ∧ isPySpace '\n' = true :=
  ⟨by decide, rfl, rfl⟩

/-- C8 (amended): for every response, the synthesizer (in any non-boolean
category) removes surrounding space and double-quote characters — and
only those — from the response: the raw text splits as
`pre ++ result ++ post` with `pre` and `post` made of spaces and double
quotes, and the result neither starts nor ends with such a character. -/
theorem synthesize_strips_only_space_and_dquote
    (field_name field_type r : String) (h : field_type ≠ "boolean") :
    ∃ pre post : List Char,
      r.toList = pre
        ++ (pyStr (get_data_from_ai field_name field_type (some r))).toList
        ++ post ∧
      (∀ c ∈ pre, isSpaceOrDquote c = true) ∧
      (∀ c ∈ post, isSpaceOrDquote c = true) ∧
      (∀ c, (pyStr (get_data_from_ai field_name field_type (some r))).toList.head?
          = some c → isSpaceOrDquote c = false) ∧
      (∀ c, (pyStr (get_data_from_ai field_name field_type (some r))).toList.getLast?
          = some c → isSpaceOrDquote c = false) := by
  have hv : get_data_from_ai field_name field_type (some r)
      = PyVal.s (pyStripSpaceQuote r) := by
    simp [get_data_from_ai, h]
  rw [hv]
  obtain ⟨pre, post, hsplit, hpre, hpost⟩ :=
    stripList_decomposition isSpaceOrDquote r.toList
  refine ⟨pre, post, hsplit, hpre, hpost, ?_, ?_⟩
  · exact fun c hc => stripList_head_not isSpaceOrDquote r.toList c hc
  · exact fun c hc => stripList_getLast_not isSpaceOrDquote r.toList c hc

/-- Witness for `synthesize_strips_only_space_and_dquote` at a concrete
quoted response. -/
theorem synthesize_strips_only_space_and_dquote_witness :
    ∃ pre post : List Char,
      (" \"hi\" " : String).toList = pre
        ++ (pyStr (get_data_from_ai "notes" "text" (some " \"hi\" "))).toList
        ++ post ∧
      (∀ c ∈ pre, isSpaceOrDquote c = true) ∧
      (∀ c ∈ post, isSpaceOrDquote c = true) ∧
      (∀ c, (pyStr (get_data_from_ai "notes" "text" (some " \"hi\" "))).toList.head?
          = some c → isSpaceOrDquote c = false) ∧
      (∀ c, (pyStr (get_data_from_ai "notes" "text" (some " \"hi\" "))).toList.getLast?
          = some c → isSpaceOrDquote c = false) :=
  synthesize_strips_only_space_and_dquote "notes" "text" " \"hi\" " (by decide)

end PdfAutofiller
